import Mathlib

/-!
# httpmock: the request matcher (`matcher.go`)

A shallow embedding of `matcher.go` and the properties of its matching
predicate.

* Go strings are `String`; a Go `error` is its message, and the `nil` error is `none`.
* `*url.URL` is `Option URL`: `none` is the nil pointer.
* A Go function that can panic returns an `Outcome`: either the returned value
  or the panic value.
* The standard-library functions `matcher.go` calls (`strings.ToUpper`,
  `url.Parse`, `url.ParseRequestURI`) are not part of the repository. They are
  the fields of a `GoLib` record that every function of the matcher takes as
  its first argument, so the general theorems hold for every behaviour of the
  library. `goLib` is a concrete model of it, used at concrete inputs.
-/

namespace Httpmock

/-! ## Data model -/

/-- A Go `error`, represented by its message. -/
abbrev GoError := String

/-- The fields of `url.URL` (`User` is the raw user-info text). -/
structure URL where
  Scheme : String
  Opaque : String
  User : String
  Host : String
  Path : String
  RawQuery : String
  Fragment : String
deriving DecidableEq

/-- The standard-library functions used by `matcher.go`, and `strings.ToLower`
which the specification refers to. A parser returns either the error or the
parsed URL, as `url.Parse` returns `(nil, err)` or `(u, nil)`. -/
structure GoLib where
  ToUpper : String → String
  ToLower : String → String
  Parse : String → Except GoError URL
  ParseRequestURI : String → Except GoError URL

/-- What a Go `panic` carries: the value given to `panic(err)`, or the runtime
error of dereferencing a nil pointer. -/
inductive PanicValue where
  | err (e : GoError)
  | nilPointerDereference
deriving DecidableEq

/-- The outcome of calling a Go function that may panic. -/
inductive Outcome (α : Type) where
  | returned (v : α)
  | panicked (p : PanicValue)
deriving DecidableEq

/-- The type `Responder` of the package: `func(*http.Request) (*http.Response, error)`,
over any representation of requests and responses. -/
abbrev Responder (Req Resp : Type) := Req → Resp × Option GoError

/-- The constant `ANY`. -/
def ANY : String := "__ANY__"

/-- The function `canonicalPath`. -/
def canonicalPath (path : String) : String :=
  if path == "/" then "" else path

/-- The struct `HttpMockMatcher`. -/
structure HttpMockMatcher (Req Resp : Type) where
  method : String
  url : Option URL
  anyUrl : Bool
  responder : Responder Req Resp

variable {Req Resp : Type}

/-! ## Operations -/

/-- The method `HttpMockMatcher.MatchMethod`. -/
def MatchMethod (L : GoLib) (m : HttpMockMatcher Req Resp) (methodToCheck : String) : Bool :=
  if m.method == ANY then true
  else if L.ToUpper methodToCheck == L.ToUpper m.method then true
  else false

/-- The method `HttpMockMatcher.MatchUrl`. The candidate is parsed first and a
parse error is the value of `panic(err)`; reading `m.url.Scheme` when `m.url`
is nil is a nil-pointer panic. -/
def MatchUrl (L : GoLib) (m : HttpMockMatcher Req Resp) (urlToCheck : String) : Outcome Bool :=
  if m.anyUrl then .returned true
  else
    match L.ParseRequestURI urlToCheck with
    | .error err => .panicked (.err err)
    | .ok parsedUrl =>
      match m.url with
      | none => .panicked .nilPointerDereference
      | some u =>
        if u.Scheme != "" && parsedUrl.Scheme != u.Scheme then .returned false
        else if u.Host != "" && parsedUrl.Host != u.Host then .returned false
        else if canonicalPath parsedUrl.Path != canonicalPath u.Path then .returned false
        else .returned true

/-- The method `HttpMockMatcher.Match`; a panic of `MatchUrl` passes through it. -/
def Match (L : GoLib) (m : HttpMockMatcher Req Resp) (methodToCheck urlToCheck : String) :
    Outcome (Bool × Option GoError) :=
  if MatchMethod L m methodToCheck != true then .returned (false, none)
  else
    match MatchUrl L m urlToCheck with
    | .panicked p => .panicked p
    | .returned b =>
      if b != true then .returned (false, none)
      else .returned (true, none)

/-- The method `HttpMockMatcher.Respond`. -/
def Respond (m : HttpMockMatcher Req Resp) (req : Req) : Resp × Option GoError :=
  m.responder req

/-- The function `NewMatcher`. The error of `url.Parse` is discarded; on an error
the parsed URL is nil. -/
def NewMatcher (L : GoLib) (methodToMatch urlToMatch : String) (responder : Responder Req Resp) :
    HttpMockMatcher Req Resp :=
  let matcher : HttpMockMatcher Req Resp :=
    { method := methodToMatch, url := none, anyUrl := urlToMatch == ANY, responder := responder }
  if matcher.anyUrl != true then
    { matcher with url := (L.Parse urlToMatch).toOption }
  else matcher

/-! ## A concrete model of the library

The parser follows the steps of Go's `net/url` `parse`: control characters and
the empty request URI are rejected, the scheme is split off and lower-cased,
the query is cut at the first `?`, a rootless path after a scheme is opaque, a
request URI must start with `/` or have a scheme, the authority after `//` runs
to the next `/` and the host is what follows its last `@`. Percent-decoding and
the validation of host, port and user info are left out, so the model is meant
for URLs without `%`, brackets or malformed ports. `ToUpper` and `ToLower` map
ASCII letters only, while Go's `strings.ToUpper` and `strings.ToLower` map every
Unicode letter: the model stands for them on ASCII strings, and it is applied to
such strings only. -/

/-- The URL with every field empty (`new(URL)`). -/
def emptyURL : URL :=
  { Scheme := "", Opaque := "", User := "", Host := "", Path := "", RawQuery := "", Fragment := "" }

/-- Go's `stringContainsCTLByte`: a byte below space, or DEL. -/
def stringContainsCTLByte (s : List Char) : Bool :=
  s.any (fun c => c.toNat < 32 || c.toNat == 127)

/-- Go's `strings.Cut` at a one-character separator: the text before the first
separator and the text after it (empty when there is none). -/
def cutAt (sep : Char) : List Char → List Char × List Char
  | [] => ([], [])
  | c :: cs => if c == sep then ([], cs) else ((cutAt sep cs).1.cons c, (cutAt sep cs).2)

/-- The text after the last occurrence of the separator, or the whole text. -/
def afterLast (sep : Char) : List Char → List Char
  | [] => []
  | c :: cs => if cs.contains sep then afterLast sep cs else if c == sep then cs else c :: cs

/-- The text before the last occurrence of the separator, or nothing. -/
def beforeLast (sep : Char) : List Char → List Char
  | [] => []
  | c :: cs => if cs.contains sep then c :: beforeLast sep cs else []

/-- The loop of Go's `getScheme`, at index `i` with `cs` still to read. -/
def getSchemeLoop (rawURL : List Char) : Nat → List Char → Except GoError (List Char × List Char)
  | _, [] => .ok ([], rawURL)
  | i, c :: cs =>
    if c.isAlpha then getSchemeLoop rawURL (i + 1) cs
    else if c.isDigit || c == '+' || c == '-' || c == '.' then
      if i == 0 then .ok ([], rawURL) else getSchemeLoop rawURL (i + 1) cs
    else if c == ':' then
      if i == 0 then .error "missing protocol scheme" else .ok (rawURL.take i, cs)
    else .ok ([], rawURL)

/-- Go's `getScheme`. -/
def getScheme (rawURL : List Char) : Except GoError (List Char × List Char) :=
  getSchemeLoop rawURL 0 rawURL

/-- The authority and path step of Go's `parse`, after scheme and query. -/
def parseAuthorityAndPath (scheme rest rawQuery : List Char) (viaRequest : Bool) : URL :=
  if (scheme != [] || (!viaRequest && !(['/', '/', '/'].isPrefixOf rest)))
      && ['/', '/'].isPrefixOf rest then
    let authority := (cutAt '/' (rest.drop 2)).1
    let path := (rest.drop 2).drop authority.length
    { emptyURL with
      Scheme := String.mk scheme, RawQuery := String.mk rawQuery,
      User := String.mk (beforeLast '@' authority),
      Host := String.mk (afterLast '@' authority),
      Path := String.mk path }
  else
    { emptyURL with
      Scheme := String.mk scheme, RawQuery := String.mk rawQuery, Path := String.mk rest }

/-- Go's `parse(rawURL, viaRequest)`. -/
def parse (rawURL : List Char) (viaRequest : Bool) : Except GoError URL :=
  if stringContainsCTLByte rawURL then .error "net/url: invalid control character in URL"
  else if rawURL.isEmpty && viaRequest then .error "empty url"
  else if rawURL == ['*'] then .ok { emptyURL with Path := "*" }
  else
    match getScheme rawURL with
    | .error e => .error e
    | .ok (scheme0, rest0) =>
      let scheme := scheme0.map Char.toLower
      let rest := (cutAt '?' rest0).1
      let rawQuery := (cutAt '?' rest0).2
      if !(['/'].isPrefixOf rest) then
        if scheme != [] then
          .ok { emptyURL with
                Scheme := String.mk scheme, Opaque := String.mk rest,
                RawQuery := String.mk rawQuery }
        else if viaRequest then .error "invalid URI for request"
        else if (cutAt '/' rest).1.contains ':' then
          .error "first path segment in URL cannot contain colon"
        else .ok (parseAuthorityAndPath scheme rest rawQuery viaRequest)
      else .ok (parseAuthorityAndPath scheme rest rawQuery viaRequest)

/-- Go's `url.ParseRequestURI`; the error is the one `parse` gives, without
the `url.Error` wrapper around it. -/
def goParseRequestURI (rawURL : String) : Except GoError URL :=
  parse rawURL.data true

/-- Go's `url.Parse`: the fragment is cut off at the first `#` before parsing;
the error is the one `parse` gives, without the `url.Error` wrapper. -/
def goParse (rawURL : String) : Except GoError URL :=
  match parse (cutAt '#' rawURL.data).1 false with
  | .error e => .error e
  | .ok u => .ok { u with Fragment := String.mk (cutAt '#' rawURL.data).2 }

/-- The library model: the case mapping of ASCII letters (Go's mapping on ASCII
strings) and the parser above. -/
def goLib : GoLib :=
  { ToUpper := fun s => String.mk (s.data.map Char.toUpper)
    ToLower := fun s => String.mk (s.data.map Char.toLower)
    Parse := goParse
    ParseRequestURI := goParseRequestURI }

/-- A request, as far as the package looks at it. -/
structure Request where
  Method : String
  URL : String
deriving DecidableEq

/-- A response: status code and body. -/
structure Response where
  StatusCode : Int
  Body : String
deriving DecidableEq

/-- Modelled from the spec: `NewStringResponder` is not in `matcher.go`; it is
the responder that returns the given status code and body for every request,
with a nil error. -/
def NewStringResponder (status : Int) (body : String) : Responder Request Response :=
  fun _ => ({ StatusCode := status, Body := body }, none)

/-- The `dummyResponder` of `matcher_test.go`. -/
def dummyResponder : Responder Request Response := NewStringResponder 200 "OK"

/-! ## Construction -/

theorem NewMatcher_method (L : GoLib) (m u : String) (r : Responder Req Resp) :
    (NewMatcher L m u r).method = m := by
  simp only [NewMatcher]
  split <;> rfl

theorem NewMatcher_anyUrl (L : GoLib) (m u : String) (r : Responder Req Resp) :
    (NewMatcher L m u r).anyUrl = (u == ANY) := by
  simp only [NewMatcher]
  split <;> rfl

theorem NewMatcher_url_of_ne (L : GoLib) (m u : String) (r : Responder Req Resp) (hu : u ≠ ANY) :
    (NewMatcher L m u r).url = (L.Parse u).toOption := by
  simp [NewMatcher, hu]

theorem NewMatcher_url_of_any (L : GoLib) (m : String) (r : Responder Req Resp) :
    (NewMatcher L m ANY r).url = none := by
  simp [NewMatcher]

theorem NewMatcher_url_eq_some (L : GoLib) (m u : String) (r : Responder Req Resp) (pu : URL) :
    (NewMatcher L m u r).url = some pu ↔ u ≠ ANY ∧ L.Parse u = .ok pu := by
  by_cases hu : u = ANY
  · subst hu
    simp [NewMatcher_url_of_any]
  · rw [NewMatcher_url_of_ne L m u r hu]
    cases hp : L.Parse u <;> simp [Except.toOption, hu]

/-! ## URL matching on parsed components -/

theorem string_bne_comm (a b : String) : (a != b) = (b != a) := by
  by_cases h : a = b
  · subst h
    rfl
  · have h2 : ¬ b = a := fun e => h e.symm
    rw [bne_iff_ne.mpr h, bne_iff_ne.mpr h2]

/-- With a parsed pattern and a parsed candidate, `MatchUrl` returns the
conjunction of its three component checks. -/
theorem MatchUrl_parsed (L : GoLib) (m : HttpMockMatcher Req Resp) (c : String) (pu cu : URL)
    (ha : m.anyUrl = false) (hu : m.url = some pu) (hc : L.ParseRequestURI c = .ok cu) :
    MatchUrl L m c = .returned (decide ((pu.Scheme = "" ∨ pu.Scheme = cu.Scheme) ∧
      (pu.Host = "" ∨ pu.Host = cu.Host) ∧ canonicalPath pu.Path = canonicalPath cu.Path)) := by
  have e1 : (cu.Scheme != pu.Scheme) = (pu.Scheme != cu.Scheme) := string_bne_comm _ _
  have e2 : (cu.Host != pu.Host) = (pu.Host != cu.Host) := string_bne_comm _ _
  have e3 : (canonicalPath cu.Path != canonicalPath pu.Path)
      = (canonicalPath pu.Path != canonicalPath cu.Path) := string_bne_comm _ _
  simp only [MatchUrl, ha, hu, hc, e1, e2, e3]
  by_cases h1 : pu.Scheme = "" <;> by_cases h2 : pu.Scheme = cu.Scheme <;>
    by_cases h3 : pu.Host = "" <;> by_cases h4 : pu.Host = cu.Host <;>
    by_cases h5 : canonicalPath pu.Path = canonicalPath cu.Path <;>
    simp [h1, h2, h3, h4, h5]

/-! ## Method matching and the combined match -/

theorem MatchMethod_of_any (L : GoLib) (m : HttpMockMatcher Req Resp) (c : String)
    (h : m.method = ANY) : MatchMethod L m c = true := by
  simp [MatchMethod, h]

theorem MatchMethod_of_ne (L : GoLib) (m : HttpMockMatcher Req Resp) (c : String)
    (h : m.method ≠ ANY) :
    MatchMethod L m c = decide (L.ToUpper c = L.ToUpper m.method) := by
  by_cases hc : L.ToUpper c = L.ToUpper m.method <;> simp [MatchMethod, h, hc]

theorem Match_of_method_false (L : GoLib) (m : HttpMockMatcher Req Resp) (cm c : String)
    (h : MatchMethod L m cm = false) : Match L m cm c = .returned (false, none) := by
  simp [Match, h]

theorem Match_of_returned (L : GoLib) (m : HttpMockMatcher Req Resp) (cm c : String) (b : Bool)
    (h : MatchMethod L m cm = true) (hb : MatchUrl L m c = .returned b) :
    Match L m cm c = .returned (b, none) := by
  cases b <;> simp [Match, h, hb]

theorem Match_of_panicked (L : GoLib) (m : HttpMockMatcher Req Resp) (cm c : String)
    (p : PanicValue) (h : MatchMethod L m cm = true) (hp : MatchUrl L m c = .panicked p) :
    Match L m cm c = .panicked p := by
  simp [Match, h, hp]

theorem MatchUrl_parse_error (L : GoLib) (m : HttpMockMatcher Req Resp) (c : String) (e : GoError)
    (ha : m.anyUrl = false) (hc : L.ParseRequestURI c = .error e) :
    MatchUrl L m c = .panicked (.err e) := by
  simp [MatchUrl, ha, hc]

/-! ## Canonical paths -/

theorem canonicalPath_of_ne (p : String) (h : p ≠ "/") : canonicalPath p = p := by
  simp [canonicalPath, h]

theorem canonicalPath_slash : canonicalPath "/" = "" := by
  simp [canonicalPath]

theorem append_slash_ne_slash (p : String) (hp : p ≠ "") : p ++ "/" ≠ "/" := by
  intro h
  have hl := congrArg String.length h
  simp only [String.length_append] at hl
  have h1 : ("/" : String).length = 1 := rfl
  have h0 : p.length = 0 := by omega
  exact hp (String.ext (List.length_eq_zero.mp h0))

theorem canonicalPath_append_slash_ne (p : String) (hp : p ≠ "") :
    canonicalPath (p ++ "/") ≠ canonicalPath p := by
  rw [canonicalPath_of_ne _ (append_slash_ne_slash p hp)]
  have h1 : ("/" : String).length = 1 := rfl
  by_cases h : p = "/"
  · subst h
    decide
  · rw [canonicalPath_of_ne p h]
    intro e
    have hl := congrArg String.length e
    simp only [String.length_append] at hl
    omega

/-! ## The combined match on parsed components -/

theorem MatchMethod_self (L : GoLib) (m : HttpMockMatcher Req Resp) :
    MatchMethod L m m.method = true := by
  by_cases h : m.method = ANY <;> simp [MatchMethod, h]

/-- With a parsed pattern and a parsed candidate, `Match` returns the conjunction
of the method check and the three component checks, and a nil error. -/
theorem Match_parsed (L : GoLib) (m : HttpMockMatcher Req Resp) (cm c : String) (pu cu : URL)
    (ha : m.anyUrl = false) (hu : m.url = some pu) (hc : L.ParseRequestURI c = .ok cu) :
    Match L m cm c = .returned (MatchMethod L m cm &&
      decide ((pu.Scheme = "" ∨ pu.Scheme = cu.Scheme) ∧
        (pu.Host = "" ∨ pu.Host = cu.Host) ∧ canonicalPath pu.Path = canonicalPath cu.Path),
      none) := by
  cases hm : MatchMethod L m cm
  · rw [Match_of_method_false L m cm c hm]
    rfl
  · rw [Match_of_returned L m cm c _ hm (MatchUrl_parsed L m c pu cu ha hu hc)]
    rfl

theorem NewMatcher_anyUrl_of_url (L : GoLib) (m u : String) (r : Responder Req Resp) (pu : URL)
    (hu : (NewMatcher L m u r).url = some pu) : (NewMatcher L m u r).anyUrl = false := by
  rw [NewMatcher_anyUrl]
  exact beq_false_of_ne ((NewMatcher_url_eq_some L m u r pu).mp hu).1

/-! ## The claims -/

/-- C1: for a matcher built by `NewMatcher` from a URL pattern other than `ANY`
that `url.Parse` parses to `pu`, and a candidate that `url.ParseRequestURI`
parses to `cu`, `MatchUrl` returns a value, and that value is true exactly when
the pattern's scheme is empty or equal to the candidate's, the pattern's host is
empty or equal to the candidate's, and the canonical paths are equal. -/
theorem MatchUrl_NewMatcher_iff (L : GoLib) (methodToMatch urlToMatch : String)
    (r : Responder Req Resp) (urlToCheck : String) (pu cu : URL)
    (hw : urlToMatch ≠ ANY) (hp : L.Parse urlToMatch = .ok pu)
    (hc : L.ParseRequestURI urlToCheck = .ok cu) :
    (∃ b, MatchUrl L (NewMatcher L methodToMatch urlToMatch r) urlToCheck = .returned b) ∧
    (MatchUrl L (NewMatcher L methodToMatch urlToMatch r) urlToCheck = .returned true ↔
      (pu.Scheme = "" ∨ pu.Scheme = cu.Scheme) ∧ (pu.Host = "" ∨ pu.Host = cu.Host) ∧
        canonicalPath pu.Path = canonicalPath cu.Path) := by
  have ha : (NewMatcher L methodToMatch urlToMatch r).anyUrl = false := by
    rw [NewMatcher_anyUrl]
    exact beq_false_of_ne hw
  have hu : (NewMatcher L methodToMatch urlToMatch r).url = some pu :=
    (NewMatcher_url_eq_some L methodToMatch urlToMatch r pu).mpr ⟨hw, hp⟩
  rw [MatchUrl_parsed L _ urlToCheck pu cu ha hu hc]
  exact ⟨⟨_, rfl⟩, by simp⟩

/-- C1, at pattern `http://www.test.com` and candidate `http://www.test.com/`. -/
theorem MatchUrl_NewMatcher_iff_witness :
    "http://www.test.com" ≠ ANY ∧
    goLib.Parse "http://www.test.com"
      = .ok { emptyURL with Scheme := "http", Host := "www.test.com" } ∧
    goLib.ParseRequestURI "http://www.test.com/"
      = .ok { emptyURL with Scheme := "http", Host := "www.test.com", Path := "/" } ∧
    MatchUrl goLib (NewMatcher goLib "GET" "http://www.test.com" dummyResponder)
      "http://www.test.com/" = .returned true :=
  ⟨by decide, rfl, rfl,
    (MatchUrl_NewMatcher_iff goLib "GET" "http://www.test.com" dummyResponder
      "http://www.test.com/" { emptyURL with Scheme := "http", Host := "www.test.com" }
      { emptyURL with Scheme := "http", Host := "www.test.com", Path := "/" }
      (by decide) rfl rfl).2.mpr ⟨by decide, by decide, by decide⟩⟩

/-- C2, as the code has it: when `MatchMethod` is true, `Match` returns `(b, nil)`
whenever `MatchUrl` returns `b`, every value `Match` returns has a nil error, and
a panic of `MatchUrl` (which is how a parse error of the candidate comes out) is
the outcome of `Match`. -/
theorem Match_of_MatchMethod_true (L : GoLib) (m : HttpMockMatcher Req Resp)
    (methodToCheck urlToCheck : String) (h : MatchMethod L m methodToCheck = true) :
    (∀ b, MatchUrl L m urlToCheck = .returned b →
      Match L m methodToCheck urlToCheck = .returned (b, none)) ∧
    (∀ b e, Match L m methodToCheck urlToCheck = .returned (b, e) →
      e = none ∧ MatchUrl L m urlToCheck = .returned b) ∧
    (∀ p, MatchUrl L m urlToCheck = .panicked p →
      Match L m methodToCheck urlToCheck = .panicked p) := by
  refine ⟨fun b hb => Match_of_returned L m _ _ b h hb, ?_,
    fun p hp => Match_of_panicked L m _ _ p h hp⟩
  intro b e hm
  cases hu : MatchUrl L m urlToCheck with
  | returned v =>
    rw [Match_of_returned L m _ _ v h hu] at hm
    simp only [Outcome.returned.injEq, Prod.mk.injEq] at hm
    exact ⟨hm.2.symm, by rw [hm.1]⟩
  | panicked p =>
    rw [Match_of_panicked L m _ _ p h hu] at hm
    exact absurd hm (by simp)

/-- C2 as amended, at pattern `GET http://www.test.com/abc` and the
candidate `get http://www.test.com/abc`. -/
theorem Match_of_MatchMethod_true_witness :
    MatchMethod goLib (NewMatcher goLib "GET" "http://www.test.com/abc" dummyResponder) "get"
      = true ∧
    MatchUrl goLib (NewMatcher goLib "GET" "http://www.test.com/abc" dummyResponder)
      "http://www.test.com/abc" = .returned true ∧
    Match goLib (NewMatcher goLib "GET" "http://www.test.com/abc" dummyResponder) "get"
      "http://www.test.com/abc" = .returned (true, none) :=
  ⟨by decide, by decide,
    (Match_of_MatchMethod_true goLib
      (NewMatcher goLib "GET" "http://www.test.com/abc" dummyResponder) "get"
      "http://www.test.com/abc" (by decide)).1 true (by decide)⟩

/-- C2 fails as stated: the method matches and the empty candidate URL has the
parse error `empty url`, yet `Match` does not return that error: it panics. -/
theorem Match_parse_error_is_not_returned :
    MatchMethod goLib (NewMatcher goLib "GET" "http://www.test.com" dummyResponder) "GET"
      = true ∧
    goLib.ParseRequestURI "" = .error "empty url" ∧
    Match goLib (NewMatcher goLib "GET" "http://www.test.com" dummyResponder) "GET" ""
      = .panicked (.err "empty url") ∧
    ¬ ∃ b, Match goLib (NewMatcher goLib "GET" "http://www.test.com" dummyResponder) "GET" ""
      = .returned (b, some "empty url") := by
  refine ⟨by decide, rfl, by decide, ?_⟩
  rintro ⟨b, hb⟩
  have hp : Match goLib (NewMatcher goLib "GET" "http://www.test.com" dummyResponder) "GET" ""
      = .panicked (.err "empty url") := by decide
  rw [hp] at hb
  exact absurd hb (by simp)

/-- C3, as the code has it: when the method matches, the URL pattern is not the
wildcard and the candidate URL does not parse as a request URI, `Match` returns
no pair at all: it panics, and the panic value is the parse error. -/
theorem Match_malformed_candidate_panics (L : GoLib) (m : HttpMockMatcher Req Resp)
    (methodToCheck urlToCheck : String) (e : GoError)
    (hm : MatchMethod L m methodToCheck = true) (ha : m.anyUrl = false)
    (hc : L.ParseRequestURI urlToCheck = .error e) :
    Match L m methodToCheck urlToCheck = .panicked (.err e) :=
  Match_of_panicked L m _ _ _ hm (MatchUrl_parse_error L m urlToCheck e ha hc)

/-- C3 as amended, at pattern `GET http://www.test.com` and the candidate URL
`www.test.com`, which is not a request URI. -/
theorem Match_malformed_candidate_panics_witness :
    MatchMethod goLib (NewMatcher goLib "GET" "http://www.test.com" dummyResponder) "GET"
      = true ∧
    (NewMatcher goLib "GET" "http://www.test.com" dummyResponder).anyUrl = false ∧
    goLib.ParseRequestURI "www.test.com" = .error "invalid URI for request" ∧
    Match goLib (NewMatcher goLib "GET" "http://www.test.com" dummyResponder) "GET"
      "www.test.com" = .panicked (.err "invalid URI for request") :=
  ⟨by decide, by decide, rfl,
    Match_malformed_candidate_panics goLib
      (NewMatcher goLib "GET" "http://www.test.com" dummyResponder) "GET" "www.test.com"
      "invalid URI for request" (by decide) (by decide) rfl⟩

/-- C3 fails as stated: the method matches, the pattern is not the wildcard and
the candidate contains a control character, so it is not a request URI; `Match`
does not return `false` with an error, it panics. -/
theorem Match_control_character_no_error_value :
    MatchMethod goLib (NewMatcher goLib "GET" "http://www.test.com" dummyResponder) "GET"
      = true ∧
    (NewMatcher goLib "GET" "http://www.test.com" dummyResponder).anyUrl = false ∧
    goLib.ParseRequestURI "http://www.test.com/\n"
      = .error "net/url: invalid control character in URL" ∧
    Match goLib (NewMatcher goLib "GET" "http://www.test.com" dummyResponder) "GET"
      "http://www.test.com/\n" = .panicked (.err "net/url: invalid control character in URL") ∧
    ¬ ∃ e, Match goLib (NewMatcher goLib "GET" "http://www.test.com" dummyResponder) "GET"
      "http://www.test.com/\n" = .returned (false, some e) := by
  refine ⟨by decide, by decide, rfl, by decide, ?_⟩
  rintro ⟨e, he⟩
  have hp : Match goLib (NewMatcher goLib "GET" "http://www.test.com" dummyResponder) "GET"
      "http://www.test.com/\n" = .panicked (.err "net/url: invalid control character in URL") := by
    decide
  rw [hp] at he
  exact absurd he (by simp)

/-- C4: when `MatchMethod` is false for the candidate method, `Match` returns
`(false, nil)` for every candidate URL string, and it does so whatever the
candidate parser is: the candidate URL is not parsed. -/
theorem Match_short_circuit (L : GoLib) (m : HttpMockMatcher Req Resp)
    (methodToCheck : String) (h : MatchMethod L m methodToCheck = false) :
    (∀ urlToCheck, Match L m methodToCheck urlToCheck = .returned (false, none)) ∧
    (∀ (parser : String → Except GoError URL) (urlToCheck : String),
      Match { L with ParseRequestURI := parser } m methodToCheck urlToCheck
        = .returned (false, none)) := by
  refine ⟨fun c => Match_of_method_false L m _ c h, fun parser c => ?_⟩
  apply Match_of_method_false
  simpa [MatchMethod] using h

/-- C4, at pattern `GET http://www.test.com/path`, candidate method `POST` and
the empty candidate URL, which is not a request URI. -/
theorem Match_short_circuit_witness :
    MatchMethod goLib (NewMatcher goLib "GET" "http://www.test.com/path" dummyResponder) "POST"
      = false ∧
    goLib.ParseRequestURI "" = .error "empty url" ∧
    Match goLib (NewMatcher goLib "GET" "http://www.test.com/path" dummyResponder) "POST" ""
      = .returned (false, none) :=
  ⟨by decide, rfl,
    (Match_short_circuit goLib
      (NewMatcher goLib "GET" "http://www.test.com/path" dummyResponder) "POST"
      (by decide)).1 ""⟩

/-- C5: for a matcher whose method pattern is not `ANY`, `MatchMethod` is true
exactly when the upper-cased candidate equals the upper-cased pattern; a matcher
registered with `PUT` matches `PUT`, `put`, `PuT` and `puT` and not `POST`. -/
theorem MatchMethod_iff_upper (L : GoLib) (m : HttpMockMatcher Req Resp)
    (methodToCheck : String) (h : m.method ≠ ANY) :
    (MatchMethod L m methodToCheck = true ↔ L.ToUpper methodToCheck = L.ToUpper m.method) ∧
    (∀ (urlToMatch : String) (r : Responder Req Resp),
      MatchMethod goLib (NewMatcher goLib "PUT" urlToMatch r) "PUT" = true ∧
      MatchMethod goLib (NewMatcher goLib "PUT" urlToMatch r) "put" = true ∧
      MatchMethod goLib (NewMatcher goLib "PUT" urlToMatch r) "PuT" = true ∧
      MatchMethod goLib (NewMatcher goLib "PUT" urlToMatch r) "puT" = true ∧
      MatchMethod goLib (NewMatcher goLib "PUT" urlToMatch r) "POST" = false) := by
  refine ⟨by simp [MatchMethod_of_ne L m methodToCheck h], fun u r => ?_⟩
  have hne : (NewMatcher goLib "PUT" u r).method ≠ ANY := by
    rw [NewMatcher_method]
    decide
  simp only [MatchMethod_of_ne goLib _ _ hne, NewMatcher_method]
  decide

/-- C5, at pattern `PUT` and candidate `puT`. -/
theorem MatchMethod_iff_upper_witness :
    (NewMatcher goLib "PUT" "http://www.test.com/path" dummyResponder).method ≠ ANY ∧
    goLib.ToUpper "puT" = goLib.ToUpper "PUT" ∧
    MatchMethod goLib (NewMatcher goLib "PUT" "http://www.test.com/path" dummyResponder) "puT"
      = true :=
  ⟨by decide, by decide,
    (MatchMethod_iff_upper goLib
      (NewMatcher goLib "PUT" "http://www.test.com/path" dummyResponder) "puT"
      (by decide)).1.mpr (by decide)⟩

/-- C6: for a matcher whose method pattern is `ANY`, `MatchMethod` is true for
every candidate method, so `Match` is the same for any two candidate methods and
is determined by `MatchUrl` on the candidate URL. -/
theorem Match_any_method (L : GoLib) (m : HttpMockMatcher Req Resp) (h : m.method = ANY) :
    (∀ methodToCheck, MatchMethod L m methodToCheck = true) ∧
    (∀ method1 method2 urlToCheck, Match L m method1 urlToCheck = Match L m method2 urlToCheck) ∧
    (∀ methodToCheck urlToCheck b, MatchUrl L m urlToCheck = .returned b →
      Match L m methodToCheck urlToCheck = .returned (b, none)) ∧
    (∀ methodToCheck urlToCheck p, MatchUrl L m urlToCheck = .panicked p →
      Match L m methodToCheck urlToCheck = .panicked p) := by
  have hm : ∀ c, MatchMethod L m c = true := fun c => MatchMethod_of_any L m c h
  refine ⟨hm, ?_, fun c u b hb => Match_of_returned L m c u b (hm c) hb,
    fun c u p hp => Match_of_panicked L m c u p (hm c) hp⟩
  intro c1 c2 u
  simp [Match, hm]

/-- C6, at pattern `ANY http://www.test.com/path`: the methods `CREAZY` and the
empty method match on the same URL, and no method matches on a longer path. -/
theorem Match_any_method_witness :
    (NewMatcher goLib ANY "http://www.test.com/path" dummyResponder).method = ANY ∧
    Match goLib (NewMatcher goLib ANY "http://www.test.com/path" dummyResponder) "CREAZY"
      "http://www.test.com/path" = .returned (true, none) ∧
    Match goLib (NewMatcher goLib ANY "http://www.test.com/path" dummyResponder) ""
      "http://www.test.com/path" = .returned (true, none) ∧
    Match goLib (NewMatcher goLib ANY "http://www.test.com/path" dummyResponder) "GET"
      "http://www.test.com/path/more/path" = .returned (false, none) :=
  ⟨by decide,
    (Match_any_method goLib (NewMatcher goLib ANY "http://www.test.com/path" dummyResponder)
      (by decide)).2.2.1 "CREAZY" "http://www.test.com/path" true (by decide),
    by decide, by decide⟩

/-- C7: a matcher built by `NewMatcher` with the URL pattern `ANY` has `MatchUrl`
return true for every candidate string and every candidate parser, without a
panic; for instance for the empty string, which is not a request URI. -/
theorem MatchUrl_any_url (L : GoLib) (methodToMatch : String) (r : Responder Req Resp)
    (urlToCheck : String) :
    MatchUrl L (NewMatcher L methodToMatch ANY r) urlToCheck = .returned true ∧
    (goLib.ParseRequestURI "" = .error "empty url" ∧
      MatchUrl goLib (NewMatcher goLib "GET" ANY dummyResponder) "" = .returned true) := by
  refine ⟨?_, rfl, by decide⟩
  have ha : (NewMatcher L methodToMatch ANY r).anyUrl = true := by
    rw [NewMatcher_anyUrl]
    decide
  simp [MatchUrl, ha]

/-- C8: for a matcher built by `NewMatcher` whose parsed pattern has an empty
scheme and an empty host, and a candidate that parses, `MatchUrl` returns, and
returns true exactly when the canonical paths are equal, whatever the
candidate's scheme and host; the pattern `/abc` matches `http://host/abc` and
`https://other-host/abc` and neither `http://host/abc/` nor `http://host/abcd`.
(The token `ANY` is never parsed by `NewMatcher`, so it has no parsed pattern.) -/
theorem MatchUrl_path_only (L : GoLib) (methodToMatch urlToMatch : String)
    (r : Responder Req Resp) (urlToCheck : String) (pu cu : URL)
    (hu : (NewMatcher L methodToMatch urlToMatch r).url = some pu)
    (hs : pu.Scheme = "") (hh : pu.Host = "")
    (hc : L.ParseRequestURI urlToCheck = .ok cu) :
    (∃ b, MatchUrl L (NewMatcher L methodToMatch urlToMatch r) urlToCheck = .returned b) ∧
    (MatchUrl L (NewMatcher L methodToMatch urlToMatch r) urlToCheck = .returned true ↔
      canonicalPath pu.Path = canonicalPath cu.Path) ∧
    (MatchUrl goLib (NewMatcher goLib "GET" "/abc" dummyResponder) "http://host/abc"
        = .returned true ∧
      MatchUrl goLib (NewMatcher goLib "GET" "/abc" dummyResponder) "https://other-host/abc"
        = .returned true ∧
      MatchUrl goLib (NewMatcher goLib "GET" "/abc" dummyResponder) "http://host/abc/"
        = .returned false ∧
      MatchUrl goLib (NewMatcher goLib "GET" "/abc" dummyResponder) "http://host/abcd"
        = .returned false) := by
  have hw := ((NewMatcher_url_eq_some L methodToMatch urlToMatch r pu).mp hu).1
  have ha : (NewMatcher L methodToMatch urlToMatch r).anyUrl = false := by
    rw [NewMatcher_anyUrl]
    exact beq_false_of_ne hw
  rw [MatchUrl_parsed L _ urlToCheck pu cu ha hu hc]
  refine ⟨⟨_, rfl⟩, by simp [hs, hh], by decide, by decide, by decide, by decide⟩

/-- C8, at the pattern `/path` and the candidate `http://www.test.com/path`. -/
theorem MatchUrl_path_only_witness :
    (NewMatcher goLib "GET" "/path" dummyResponder).url = some { emptyURL with Path := "/path" } ∧
    goLib.ParseRequestURI "http://www.test.com/path"
      = .ok { emptyURL with Scheme := "http", Host := "www.test.com", Path := "/path" } ∧
    MatchUrl goLib (NewMatcher goLib "GET" "/path" dummyResponder) "http://www.test.com/path"
      = .returned true :=
  ⟨by decide, rfl,
    (MatchUrl_path_only goLib "GET" "/path" dummyResponder "http://www.test.com/path"
      { emptyURL with Path := "/path" }
      { emptyURL with Scheme := "http", Host := "www.test.com", Path := "/path" }
      (by decide) rfl rfl rfl).2.1.mpr (by decide)⟩

/-- C9: `canonicalPath` maps `/` to the empty string, maps the empty string to
itself, and is the identity on every path other than `/`. -/
theorem canonicalPath_spec :
    canonicalPath "/" = "" ∧ canonicalPath "" = "" ∧
    ∀ p : String, p ≠ "/" → canonicalPath p = p :=
  ⟨by decide, by decide, canonicalPath_of_ne⟩

/-- C9, at the path `/path`. -/
theorem canonicalPath_spec_witness : "/path" ≠ "/" ∧ canonicalPath "/path" = "/path" :=
  ⟨by decide, canonicalPath_spec.2.2 "/path" (by decide)⟩

/-- C10: for a non-empty path `p`, a matcher built by `NewMatcher` whose parsed
pattern has path `p/` does not match a candidate with path `p`, and one with
pattern path `p` does not match a candidate with path `p/`, whatever the schemes
and hosts are; two paths have the same canonical path only when they are equal
or are the pair of the empty path and `/`. -/
theorem MatchUrl_trailing_slash (L : GoLib) (methodToMatch urlToMatch : String)
    (r : Responder Req Resp) (urlToCheck : String) (pu cu : URL) (p : String)
    (hu : (NewMatcher L methodToMatch urlToMatch r).url = some pu)
    (hc : L.ParseRequestURI urlToCheck = .ok cu) (hp : p ≠ "") :
    (pu.Path = p ++ "/" → cu.Path = p →
      MatchUrl L (NewMatcher L methodToMatch urlToMatch r) urlToCheck = .returned false) ∧
    (pu.Path = p → cu.Path = p ++ "/" →
      MatchUrl L (NewMatcher L methodToMatch urlToMatch r) urlToCheck = .returned false) ∧
    (∀ a b : String, canonicalPath a = canonicalPath b ↔
      a = b ∨ (a = "" ∧ b = "/") ∨ (a = "/" ∧ b = "")) := by
  have hw := ((NewMatcher_url_eq_some L methodToMatch urlToMatch r pu).mp hu).1
  have ha : (NewMatcher L methodToMatch urlToMatch r).anyUrl = false := by
    rw [NewMatcher_anyUrl]
    exact beq_false_of_ne hw
  rw [MatchUrl_parsed L _ urlToCheck pu cu ha hu hc]
  have hne := canonicalPath_append_slash_ne p hp
  refine ⟨fun h1 h2 => ?_, fun h1 h2 => ?_, fun a b => ?_⟩
  · simp [h1, h2, hne]
  · simp [h1, h2, Ne.symm hne]
  · by_cases ha1 : a = "/" <;> by_cases hb1 : b = "/"
    · simp [ha1, hb1]
    · rw [ha1, canonicalPath_slash, canonicalPath_of_ne b hb1]
      have h0 : ¬ ("/" : String) = b := fun e => hb1 e.symm
      simp [h0, eq_comm]
    · rw [hb1, canonicalPath_slash, canonicalPath_of_ne a ha1]
      simp [ha1]
    · rw [canonicalPath_of_ne a ha1, canonicalPath_of_ne b hb1]
      simp [ha1, hb1]

/-- C10, at the pattern `http://test.com/abc/` and the candidate
`http://test.com/abc`, which agree on scheme and host. -/
theorem MatchUrl_trailing_slash_witness :
    (NewMatcher goLib "GET" "http://test.com/abc/" dummyResponder).url
      = some { emptyURL with Scheme := "http", Host := "test.com", Path := "/abc/" } ∧
    goLib.ParseRequestURI "http://test.com/abc"
      = .ok { emptyURL with Scheme := "http", Host := "test.com", Path := "/abc" } ∧
    MatchUrl goLib (NewMatcher goLib "GET" "http://test.com/abc/" dummyResponder)
      "http://test.com/abc" = .returned false :=
  ⟨by decide, rfl,
    (MatchUrl_trailing_slash goLib "GET" "http://test.com/abc/" dummyResponder
      "http://test.com/abc"
      { emptyURL with Scheme := "http", Host := "test.com", Path := "/abc/" }
      { emptyURL with Scheme := "http", Host := "test.com", Path := "/abc" } "/abc"
      (by decide) rfl (by decide)).1 (by decide) (by decide)⟩

/-- C11: for a matcher built by `NewMatcher` whose parsed pattern has a non-empty
host, and a candidate that parses to a different host string, `MatchUrl` returns
false, whatever the schemes and paths are. The host includes the port: the
pattern `http://host:5000/abc` has host `host:5000`, the candidate
`http://host/abc` has host `host`, and `MatchUrl` returns false. -/
theorem MatchUrl_host_differs (L : GoLib) (methodToMatch urlToMatch : String)
    (r : Responder Req Resp) (urlToCheck : String) (pu cu : URL)
    (hu : (NewMatcher L methodToMatch urlToMatch r).url = some pu)
    (hc : L.ParseRequestURI urlToCheck = .ok cu)
    (hh : pu.Host ≠ "") (hd : cu.Host ≠ pu.Host) :
    MatchUrl L (NewMatcher L methodToMatch urlToMatch r) urlToCheck = .returned false ∧
    (goLib.Parse "http://host:5000/abc"
        = .ok { emptyURL with Scheme := "http", Host := "host:5000", Path := "/abc" } ∧
      goLib.ParseRequestURI "http://host/abc"
        = .ok { emptyURL with Scheme := "http", Host := "host", Path := "/abc" } ∧
      MatchUrl goLib (NewMatcher goLib "GET" "http://host:5000/abc" dummyResponder)
        "http://host/abc" = .returned false) := by
  have hw := ((NewMatcher_url_eq_some L methodToMatch urlToMatch r pu).mp hu).1
  have ha : (NewMatcher L methodToMatch urlToMatch r).anyUrl = false := by
    rw [NewMatcher_anyUrl]
    exact beq_false_of_ne hw
  rw [MatchUrl_parsed L _ urlToCheck pu cu ha hu hc]
  have hd2 : ¬ pu.Host = cu.Host := fun e => hd e.symm
  refine ⟨by simp [hh, hd2], rfl, rfl, by decide⟩

/-- C11, at the pattern `http://www.test.com:5000/abc` and the candidate
`http://www.test.com/abc`. -/
theorem MatchUrl_host_differs_witness :
    (NewMatcher goLib "GET" "http://www.test.com:5000/abc" dummyResponder).url
      = some { emptyURL with Scheme := "http", Host := "www.test.com:5000", Path := "/abc" } ∧
    goLib.ParseRequestURI "http://www.test.com/abc"
      = .ok { emptyURL with Scheme := "http", Host := "www.test.com", Path := "/abc" } ∧
    MatchUrl goLib (NewMatcher goLib "GET" "http://www.test.com:5000/abc" dummyResponder)
      "http://www.test.com/abc" = .returned false :=
  ⟨by decide, rfl,
    (MatchUrl_host_differs goLib "GET" "http://www.test.com:5000/abc" dummyResponder
      "http://www.test.com/abc"
      { emptyURL with Scheme := "http", Host := "www.test.com:5000", Path := "/abc" }
      { emptyURL with Scheme := "http", Host := "www.test.com", Path := "/abc" }
      (by decide) rfl (by decide) (by decide)).1⟩

/-- C12, what the code does: the parsed pattern is set or the any-URL flag is
set, but not both, exactly when the pattern is `ANY` or `url.Parse` accepts it.
For the pattern `:abc`, which `url.Parse` rejects, `NewMatcher` discards the
error and returns a matcher with a nil URL and the flag unset, and `MatchUrl`
on a well-formed candidate then dereferences the nil pointer. -/
theorem NewMatcher_url_xor_anyUrl :
    (∀ (L : GoLib) (methodToMatch urlToMatch : String) (r : Responder Req Resp),
      (((NewMatcher L methodToMatch urlToMatch r).url.isSome
          != (NewMatcher L methodToMatch urlToMatch r).anyUrl) = true ↔
        (urlToMatch = ANY ∨ ∃ pu, L.Parse urlToMatch = .ok pu))) ∧
    (goLib.Parse ":abc" = .error "missing protocol scheme" ∧
      (NewMatcher goLib "GET" ":abc" dummyResponder).url = none ∧
      (NewMatcher goLib "GET" ":abc" dummyResponder).anyUrl = false ∧
      MatchUrl goLib (NewMatcher goLib "GET" ":abc" dummyResponder) "http://www.test.com"
        = .panicked .nilPointerDereference) := by
  refine ⟨fun L m u r => ?_, rfl, by decide, by decide, by decide⟩
  by_cases hu : u = ANY
  · subst hu
    rw [NewMatcher_url_of_any, NewMatcher_anyUrl]
    simp
  · rw [NewMatcher_url_of_ne L m u r hu, NewMatcher_anyUrl]
    cases hp : L.Parse u <;> simp [Except.toOption, hu]

/-- C13: `Respond` is the stored responder applied to the request: for a matcher
built by `NewMatcher` with responder `r` it returns the pair `r req`, whatever
the method and URL patterns and the request are; with the string responder for
status 200 and body `OK`, it returns status 200, body `OK` and a nil error. -/
theorem Respond_delegates (L : GoLib) (methodToMatch urlToMatch : String)
    (r : Responder Req Resp) (req : Req) :
    Respond (NewMatcher L methodToMatch urlToMatch r) req = r req ∧
    (∀ (m : HttpMockMatcher Req Resp), Respond m req = m.responder req) ∧
    (∀ (request : Request),
      Respond (NewMatcher L methodToMatch urlToMatch (NewStringResponder 200 "OK")) request
        = ({ StatusCode := 200, Body := "OK" }, none)) := by
  refine ⟨?_, fun m => rfl, fun request => ?_⟩
  · simp only [Respond, NewMatcher]
    split <;> rfl
  · simp only [Respond, NewMatcher]
    split <;> rfl

/-- C14, as the code has it: for every method `m` and every URL string `u` other
than `ANY` that `url.Parse` and `url.ParseRequestURI` both accept with the same
scheme, host and path, the matcher `NewMatcher(m, u, r)` matches its own
literal: `Match(m, u)` returns `(true, nil)`. -/
theorem Match_reflexive (L : GoLib) (m u : String) (r : Responder Req Resp) (pu cu : URL)
    (hw : u ≠ ANY) (hp : L.Parse u = .ok pu) (hc : L.ParseRequestURI u = .ok cu)
    (hs : pu.Scheme = cu.Scheme) (hh : pu.Host = cu.Host) (hpath : pu.Path = cu.Path) :
    Match L (NewMatcher L m u r) m u = .returned (true, none) := by
  have hu : (NewMatcher L m u r).url = some pu :=
    (NewMatcher_url_eq_some L m u r pu).mpr ⟨hw, hp⟩
  have ha := NewMatcher_anyUrl_of_url L m u r pu hu
  have hm : MatchMethod L (NewMatcher L m u r) m = true := by
    have h := MatchMethod_self L (NewMatcher L m u r)
    rwa [NewMatcher_method] at h
  rw [Match_parsed L _ m u pu cu ha hu hc, hm]
  simp [hs, hh, hpath]

/-- C14 as amended, at the method `GET` and the URL `http://www.test.com:5000/abc`. -/
theorem Match_reflexive_witness :
    "http://www.test.com:5000/abc" ≠ ANY ∧
    goLib.Parse "http://www.test.com:5000/abc"
      = .ok { emptyURL with Scheme := "http", Host := "www.test.com:5000", Path := "/abc" } ∧
    goLib.ParseRequestURI "http://www.test.com:5000/abc"
      = .ok { emptyURL with Scheme := "http", Host := "www.test.com:5000", Path := "/abc" } ∧
    Match goLib (NewMatcher goLib "GET" "http://www.test.com:5000/abc" dummyResponder) "GET"
      "http://www.test.com:5000/abc" = .returned (true, none) :=
  ⟨by decide, rfl, rfl,
    Match_reflexive goLib "GET" "http://www.test.com:5000/abc" dummyResponder
      { emptyURL with Scheme := "http", Host := "www.test.com:5000", Path := "/abc" }
      { emptyURL with Scheme := "http", Host := "www.test.com:5000", Path := "/abc" }
      (by decide) rfl rfl rfl rfl rfl⟩

/-- C14 fails as stated: the URL `//www.test.com/path` is not `ANY` and is
accepted as a pattern, with host `www.test.com` and path `/path`, and as a
candidate, where a request URI without a scheme is all path; the matcher built
from it does not match its own literal. The same happens with a fragment:
`http://www.test.com/path#top` has the path `/path` as a pattern and the path
`/path#top` as a candidate. -/
theorem Match_not_reflexive_scheme_relative :
    "GET" ≠ ANY ∧ "//www.test.com/path" ≠ ANY ∧
    goLib.Parse "//www.test.com/path"
      = .ok { emptyURL with Host := "www.test.com", Path := "/path" } ∧
    goLib.ParseRequestURI "//www.test.com/path"
      = .ok { emptyURL with Path := "//www.test.com/path" } ∧
    Match goLib (NewMatcher goLib "GET" "//www.test.com/path" dummyResponder) "GET"
      "//www.test.com/path" = .returned (false, none) ∧
    goLib.Parse "http://www.test.com/path#top"
      = .ok { emptyURL with
              Scheme := "http", Host := "www.test.com", Path := "/path", Fragment := "top" } ∧
    goLib.ParseRequestURI "http://www.test.com/path#top"
      = .ok { emptyURL with Scheme := "http", Host := "www.test.com", Path := "/path#top" } ∧
    Match goLib (NewMatcher goLib "GET" "http://www.test.com/path#top" dummyResponder) "GET"
      "http://www.test.com/path#top" = .returned (false, none) :=
  ⟨by decide, by decide, rfl, rfl, by decide, rfl, rfl, by decide⟩

/-- C15: for methods `m1`, `m2` other than `ANY` and URLs `u1`, `u2` whose parsed
patterns have a non-empty scheme and a non-empty host and agree with their
parses as candidates on scheme, host and path, the matcher of `(m1, u1)` on the
candidate `(m2, u2)` and the matcher of `(m2, u2)` on the candidate `(m1, u1)`
give the same result. `http://www.test.com` and `http://www.test.com/` match in
both directions; `https://www.test.com` and `http://www.test.com` in neither. -/
theorem Match_symmetric (L : GoLib) (m1 u1 m2 u2 : String) (r : Responder Req Resp)
    (p1 c1 p2 c2 : URL) (hm1 : m1 ≠ ANY) (hm2 : m2 ≠ ANY)
    (hu1 : (NewMatcher L m1 u1 r).url = some p1) (hc1 : L.ParseRequestURI u1 = .ok c1)
    (hu2 : (NewMatcher L m2 u2 r).url = some p2) (hc2 : L.ParseRequestURI u2 = .ok c2)
    (e1 : p1.Scheme = c1.Scheme ∧ p1.Host = c1.Host ∧ p1.Path = c1.Path)
    (e2 : p2.Scheme = c2.Scheme ∧ p2.Host = c2.Host ∧ p2.Path = c2.Path)
    (n1 : p1.Scheme ≠ "" ∧ p1.Host ≠ "") (n2 : p2.Scheme ≠ "" ∧ p2.Host ≠ "") :
    Match L (NewMatcher L m1 u1 r) m2 u2 = Match L (NewMatcher L m2 u2 r) m1 u1 ∧
    (Match goLib (NewMatcher goLib "GET" "http://www.test.com" dummyResponder) "GET"
        "http://www.test.com/" = .returned (true, none) ∧
      Match goLib (NewMatcher goLib "GET" "http://www.test.com/" dummyResponder) "GET"
        "http://www.test.com" = .returned (true, none) ∧
      Match goLib (NewMatcher goLib "GET" "https://www.test.com" dummyResponder) "GET"
        "http://www.test.com" = .returned (false, none) ∧
      Match goLib (NewMatcher goLib "GET" "http://www.test.com" dummyResponder) "GET"
        "https://www.test.com" = .returned (false, none)) := by
  refine ⟨?_, by decide, by decide, by decide, by decide⟩
  have ha1 := NewMatcher_anyUrl_of_url L m1 u1 r p1 hu1
  have ha2 := NewMatcher_anyUrl_of_url L m2 u2 r p2 hu2
  have hn1 : (NewMatcher L m1 u1 r).method ≠ ANY := by rwa [NewMatcher_method]
  have hn2 : (NewMatcher L m2 u2 r).method ≠ ANY := by rwa [NewMatcher_method]
  rw [Match_parsed L _ m2 u2 p1 c2 ha1 hu1 hc2, Match_parsed L _ m1 u1 p2 c1 ha2 hu2 hc1,
    MatchMethod_of_ne L _ m2 hn1, MatchMethod_of_ne L _ m1 hn2, NewMatcher_method,
    NewMatcher_method]
  obtain ⟨s1, h1, q1⟩ := e1
  obtain ⟨s2, h2, q2⟩ := e2
  have a1 : ¬ c1.Scheme = "" := fun h => n1.1 (s1.trans h)
  have a2 : ¬ c2.Scheme = "" := fun h => n2.1 (s2.trans h)
  have b1 : ¬ c1.Host = "" := fun h => n1.2 (h1.trans h)
  have b2 : ¬ c2.Host = "" := fun h => n2.2 (h2.trans h)
  rw [s1, h1, q1, s2, h2, q2]
  have k1 : (L.ToUpper m2 = L.ToUpper m1) = (L.ToUpper m1 = L.ToUpper m2) :=
    propext eq_comm
  have k2 : (c1.Scheme = c2.Scheme) = (c2.Scheme = c1.Scheme) := propext eq_comm
  have k3 : (c1.Host = c2.Host) = (c2.Host = c1.Host) := propext eq_comm
  have k4 : (canonicalPath c1.Path = canonicalPath c2.Path)
      = (canonicalPath c2.Path = canonicalPath c1.Path) := propext eq_comm
  simp only [a1, a2, b1, b2, false_or, k1, k2, k3, k4]

/-- C15, at `GET http://www.test.com` and `get http://www.test.com/`. -/
theorem Match_symmetric_witness :
    Match goLib (NewMatcher goLib "GET" "http://www.test.com" dummyResponder) "get"
      "http://www.test.com/"
    = Match goLib (NewMatcher goLib "get" "http://www.test.com/" dummyResponder) "GET"
      "http://www.test.com" :=
  (Match_symmetric goLib "GET" "http://www.test.com" "get" "http://www.test.com/"
    dummyResponder
    { emptyURL with Scheme := "http", Host := "www.test.com" }
    { emptyURL with Scheme := "http", Host := "www.test.com" }
    { emptyURL with Scheme := "http", Host := "www.test.com", Path := "/" }
    { emptyURL with Scheme := "http", Host := "www.test.com", Path := "/" }
    (by decide) (by decide) (by decide) rfl (by decide) rfl
    ⟨rfl, rfl, rfl⟩ ⟨rfl, rfl, rfl⟩ ⟨by decide, by decide⟩ ⟨by decide, by decide⟩).1

/-- C16, as the code has it: when the pattern `m1` is `ANY` exactly when its
upper-case form is `ANY`, and upper-casing is idempotent on `m1` and undoes the
lower-casing of `m2`, `MatchMethod` with pattern `m1` on candidate `m2` equals
`MatchMethod` with pattern `uppercase(m1)` on candidate `lowercase(m2)`. The
case mappings are those of the library, whatever they are. -/
theorem MatchMethod_case_insensitive (L : GoLib) (m1 m2 u : String) (r : Responder Req Resp)
    (hA : m1 = ANY ↔ L.ToUpper m1 = ANY)
    (hU : L.ToUpper (L.ToUpper m1) = L.ToUpper m1)
    (hL : L.ToUpper (L.ToLower m2) = L.ToUpper m2) :
    MatchMethod L (NewMatcher L m1 u r) m2
      = MatchMethod L (NewMatcher L (L.ToUpper m1) u r) (L.ToLower m2) := by
  by_cases h : m1 = ANY
  · rw [MatchMethod_of_any L _ m2 (by rw [NewMatcher_method]; exact h),
      MatchMethod_of_any L _ _ (by rw [NewMatcher_method]; exact hA.mp h)]
  · have h2 : L.ToUpper m1 ≠ ANY := fun e => h (hA.mpr e)
    rw [MatchMethod_of_ne L _ m2 (by rw [NewMatcher_method]; exact h),
      MatchMethod_of_ne L _ _ (by rw [NewMatcher_method]; exact h2),
      NewMatcher_method, NewMatcher_method, hU, hL]

/-- C16 as amended, at the pattern `Put` and the candidate `pUT`. -/
theorem MatchMethod_case_insensitive_witness :
    ("Put" = ANY ↔ goLib.ToUpper "Put" = ANY) ∧
    goLib.ToUpper (goLib.ToUpper "Put") = goLib.ToUpper "Put" ∧
    goLib.ToUpper (goLib.ToLower "pUT") = goLib.ToUpper "pUT" ∧
    MatchMethod goLib (NewMatcher goLib "Put" "http://www.test.com/path" dummyResponder) "pUT"
      = MatchMethod goLib
          (NewMatcher goLib (goLib.ToUpper "Put") "http://www.test.com/path" dummyResponder)
          (goLib.ToLower "pUT") :=
  ⟨by decide, by decide, by decide,
    MatchMethod_case_insensitive goLib "Put" "pUT" "http://www.test.com/path" dummyResponder
      (by decide) (by decide) (by decide)⟩

/-- C16 fails as stated: the pattern `__any__` is not the wildcard and does not
match the candidate `GET`, but its upper-case form is the token `ANY`, which
matches the candidate `get`. -/
theorem MatchMethod_upper_of_pattern_is_wildcard :
    goLib.ToUpper "__any__" = ANY ∧ goLib.ToLower "GET" = "get" ∧
    MatchMethod goLib (NewMatcher goLib "__any__" "http://www.test.com/path" dummyResponder)
      "GET" = false ∧
    MatchMethod goLib
      (NewMatcher goLib (goLib.ToUpper "__any__") "http://www.test.com/path" dummyResponder)
      (goLib.ToLower "GET") = true :=
  ⟨by decide, by decide, by decide, by decide⟩

/-- C17: whenever `Match` returns a pair, its error is nil; in particular it
never returns true together with a non-nil error. -/
theorem Match_error_is_nil (L : GoLib) (m : HttpMockMatcher Req Resp)
    (methodToCheck urlToCheck : String) (b : Bool) (e : Option GoError)
    (h : Match L m methodToCheck urlToCheck = .returned (b, e)) :
    e = none ∧ ¬ (b = true ∧ e ≠ none) := by
  have he : e = none := by
    cases hm : MatchMethod L m methodToCheck with
    | false =>
      rw [Match_of_method_false L m _ _ hm] at h
      simp only [Outcome.returned.injEq, Prod.mk.injEq] at h
      exact h.2.symm
    | true =>
      cases hu : MatchUrl L m urlToCheck with
      | returned v =>
        rw [Match_of_returned L m _ _ v hm hu] at h
        simp only [Outcome.returned.injEq, Prod.mk.injEq] at h
        exact h.2.symm
      | panicked p =>
        rw [Match_of_panicked L m _ _ p hm hu] at h
        exact absurd h (by simp)
  exact ⟨he, fun hb => hb.2 he⟩

/-- C17, at the pattern `GET http://www.test.com/abc` and the same candidate,
on which `Match` returns true. -/
theorem Match_error_is_nil_witness :
    Match goLib (NewMatcher goLib "GET" "http://www.test.com/abc" dummyResponder) "GET"
      "http://www.test.com/abc" = .returned (true, none) ∧
    ((none : Option GoError) = none ∧ ¬ (true = true ∧ (none : Option GoError) ≠ none)) :=
  ⟨by decide,
    Match_error_is_nil goLib (NewMatcher goLib "GET" "http://www.test.com/abc" dummyResponder)
      "GET" "http://www.test.com/abc" true none (by decide)⟩

/-- C18: if a matcher whose parsed pattern is `pu` matches a candidate under
`MatchUrl`, then so does the matcher whose pattern is `pu` with the scheme
emptied, the one with the host emptied, and the one with both emptied (the path
is kept). -/
theorem MatchUrl_drop_constraint (L : GoLib) (m : HttpMockMatcher Req Resp)
    (urlToCheck : String) (pu : URL) (hu : m.url = some pu)
    (h : MatchUrl L m urlToCheck = .returned true) :
    MatchUrl L { m with url := some { pu with Scheme := "" } } urlToCheck = .returned true ∧
    MatchUrl L { m with url := some { pu with Host := "" } } urlToCheck = .returned true ∧
    MatchUrl L { m with url := some { pu with Scheme := "", Host := "" } } urlToCheck
      = .returned true := by
  cases ha : m.anyUrl with
  | true => simp [MatchUrl, ha]
  | false =>
    cases hc : L.ParseRequestURI urlToCheck with
    | error e =>
      rw [MatchUrl_parse_error L m urlToCheck e ha hc] at h
      exact absurd h (by simp)
    | ok cu =>
      rw [MatchUrl_parsed L m urlToCheck pu cu ha hu hc] at h
      simp only [Outcome.returned.injEq, decide_eq_true_eq] at h
      obtain ⟨h1, h2, h3⟩ := h
      have key : ∀ qu : URL, qu.Path = pu.Path →
          (qu.Scheme = "" ∨ qu.Scheme = cu.Scheme) → (qu.Host = "" ∨ qu.Host = cu.Host) →
          MatchUrl L { m with url := some qu, anyUrl := false } urlToCheck = .returned true := by
        intro qu e3 e1 e2
        rw [MatchUrl_parsed L _ urlToCheck qu cu rfl rfl hc, e3]
        simp [e1, e2, h3]
      exact ⟨key _ rfl (Or.inl rfl) h2, key _ rfl h1 (Or.inl rfl),
        key _ rfl (Or.inl rfl) (Or.inl rfl)⟩

/-- C18, at the pattern `http://www.test.com/path` and the same candidate: the
pattern without its scheme still matches. -/
theorem MatchUrl_drop_constraint_witness :
    (NewMatcher goLib "GET" "http://www.test.com/path" dummyResponder).url
      = some { emptyURL with Scheme := "http", Host := "www.test.com", Path := "/path" } ∧
    MatchUrl goLib (NewMatcher goLib "GET" "http://www.test.com/path" dummyResponder)
      "http://www.test.com/path" = .returned true ∧
    MatchUrl goLib
      { NewMatcher goLib "GET" "http://www.test.com/path" dummyResponder with
        url := some { ({ emptyURL with
          Scheme := "http", Host := "www.test.com", Path := "/path" } : URL) with
          Scheme := "" } }
      "http://www.test.com/path" = .returned true :=
  ⟨by decide, by decide,
    (MatchUrl_drop_constraint goLib
      (NewMatcher goLib "GET" "http://www.test.com/path" dummyResponder)
      "http://www.test.com/path"
      { emptyURL with Scheme := "http", Host := "www.test.com", Path := "/path" }
      (by decide) (by decide)).1⟩

/-- C19: for a matcher whose URL pattern is not the wildcard, two candidates
whose parses agree on scheme, host and path give the same outcome of `MatchUrl`;
and two matchers built by `NewMatcher` whose parsed patterns agree on scheme,
host and path give the same outcome of `MatchUrl` on every candidate. -/
theorem MatchUrl_depends_on_components (L : GoLib) :
    (∀ (m : HttpMockMatcher Req Resp) (c1 c2 : String) (cu1 cu2 : URL),
      m.anyUrl = false →
      L.ParseRequestURI c1 = .ok cu1 → L.ParseRequestURI c2 = .ok cu2 →
      cu1.Scheme = cu2.Scheme → cu1.Host = cu2.Host → cu1.Path = cu2.Path →
      MatchUrl L m c1 = MatchUrl L m c2) ∧
    (∀ (m1 u1 m2 u2 : String) (r1 r2 : Responder Req Resp) (p1 p2 : URL),
      (NewMatcher L m1 u1 r1).url = some p1 → (NewMatcher L m2 u2 r2).url = some p2 →
      p1.Scheme = p2.Scheme → p1.Host = p2.Host → p1.Path = p2.Path →
      ∀ c, MatchUrl L (NewMatcher L m1 u1 r1) c = MatchUrl L (NewMatcher L m2 u2 r2) c) := by
  constructor
  · intro m c1 c2 cu1 cu2 ha h1 h2 hs hh hp
    cases hu : m.url with
    | none => simp [MatchUrl, ha, h1, h2, hu]
    | some pu =>
      rw [MatchUrl_parsed L m c1 pu cu1 ha hu h1, MatchUrl_parsed L m c2 pu cu2 ha hu h2,
        hs, hh, hp]
  · intro m1 u1 m2 u2 r1 r2 p1 p2 hu1 hu2 hs hh hp c
    have ha1 := NewMatcher_anyUrl_of_url L m1 u1 r1 p1 hu1
    have ha2 := NewMatcher_anyUrl_of_url L m2 u2 r2 p2 hu2
    cases hc : L.ParseRequestURI c with
    | error e =>
      rw [MatchUrl_parse_error L _ c e ha1 hc, MatchUrl_parse_error L _ c e ha2 hc]
    | ok cu =>
      rw [MatchUrl_parsed L _ c p1 cu ha1 hu1 hc, MatchUrl_parsed L _ c p2 cu ha2 hu2 hc,
        hs, hh, hp]

/-- C19, at the pattern `http://www.test.com/path` and two candidates that
differ in the query string and the user info only. -/
theorem MatchUrl_depends_on_components_witness :
    goLib.ParseRequestURI "http://www.test.com/path?x=1"
      = .ok { emptyURL with
              Scheme := "http", Host := "www.test.com", Path := "/path", RawQuery := "x=1" } ∧
    goLib.ParseRequestURI "http://user@www.test.com/path"
      = .ok { emptyURL with
              Scheme := "http", Host := "www.test.com", Path := "/path", User := "user" } ∧
    MatchUrl goLib (NewMatcher goLib "GET" "http://www.test.com/path" dummyResponder)
        "http://www.test.com/path?x=1"
      = MatchUrl goLib (NewMatcher goLib "GET" "http://www.test.com/path" dummyResponder)
        "http://user@www.test.com/path" :=
  ⟨rfl, rfl,
    (MatchUrl_depends_on_components goLib).1
      (NewMatcher goLib "GET" "http://www.test.com/path" dummyResponder)
      "http://www.test.com/path?x=1" "http://user@www.test.com/path"
      { emptyURL with
        Scheme := "http", Host := "www.test.com", Path := "/path", RawQuery := "x=1" }
      { emptyURL with
        Scheme := "http", Host := "www.test.com", Path := "/path", User := "user" }
      (by decide) rfl rfl rfl rfl rfl⟩

end Httpmock
